import Mathlib

/-!
Shallow embedding of the Netmore ADR algorithm
(`src/chirpstack/src/adr/netmore.rs`) and the request/response data
contract it operates on.

Modelling conventions:
* `f32` values (SNR, installation margin, packet-loss percentage) are
  modelled as `Rat`; the source only compares, adds and takes maxima of
  such values, so the rational model is exact on those operations.
* Machine integers are modelled as `Nat` with release-profile wrapping
  semantics: an unsigned subtraction or addition that can overflow is
  written with an explicit `% 2 ^ w` (w = 8 for the `u8` radio fields,
  w = 32 for the `u32` frame counter).
* Operations that panic in Rust (out-of-range slice after the `usize`
  underflow of `len - 5`, the `clamp` assertion when `min > max`, and
  the `unimplemented!()` arm of the data-rate table) return `none`.
-/

namespace Netmore

/-- Modelled from the spec: one historical uplink observation, holding the
device frame counter (`u32`) and the best SNR of the reception in dB
(`f32`, modelled as `Rat`). The struct itself lives outside `src/`
(`adr/mod.rs`); only its two fields used by the algorithm are modelled. -/
structure UplinkHistory where
  f_cnt : Nat
  max_snr : Rat
deriving DecidableEq

/-- Modelled from the spec: the LoRaWAN MAC revision enum; the algorithm
only distinguishes the two legacy revisions 1.0.0 / 1.0.1 from every newer
one. -/
inductive MacVersion where
  | LORAWAN_1_0_0
  | LORAWAN_1_0_1
  | LORAWAN_1_0_2
  | LORAWAN_1_0_3
  | LORAWAN_1_0_4
  | LORAWAN_1_1_0
deriving DecidableEq

/-- Modelled from the spec: the immutable decision request (`adr/mod.rs`
is outside `src/`). Radio indices (`dr`, `tx_power_index`, `nb_trans` and
their bounds) are `u8`-valued, the history a caller-supplied list. -/
structure Request where
  dev_eui : String
  adr : Bool
  dr : Nat
  min_dr : Nat
  max_dr : Nat
  tx_power_index : Nat
  min_tx_power_index : Nat
  max_tx_power_index : Nat
  nb_trans : Nat
  mac_version : MacVersion
  installation_margin : Rat
  skip_fcnt_check : Bool
  uplink_history : List UplinkHistory
deriving DecidableEq

/-- Modelled from the spec: the decision response carrying the recommended
data rate, transmit-power index and retransmission count. -/
structure Response where
  dr : Nat
  tx_power_index : Nat
  nb_trans : Nat
deriving DecidableEq

/-- `data_rate_to_req_snr` from the source: required SNR per data rate;
any rate outside 0..5 hits `unimplemented!()`, modelled as `none`. -/
def data_rate_to_req_snr (rate : Nat) : Option Rat :=
  match rate with
  | 5 => some (-7.5)
  | 4 => some (-10.0)
  | 3 => some (-12.5)
  | 2 => some (-15.0)
  | 1 => some (-17.5)
  | 0 => some (-20.0)
  | _ => none

/-- `Algorithm::required_history_count` from the source. -/
def required_history_count : Nat := 20

/-- `Algorithm::get_nb_trans` from the source: clamp the current
retransmission count into 1..3 and look up the desired count in the fixed
packet-loss table. -/
def get_nb_trans (current_nb_trans : Nat) (pkt_loss_rate : Rat) : Nat :=
  let pkt_loss_table : List (List Nat) := [[0, 1, 2], [1, 2, 3], [2, 3, 4], [4, 4, 4]]
  let c1 := if current_nb_trans < 1 then 1 else current_nb_trans
  let c2 := if c1 > 3 then 3 else c1
  let nb_trans_index := c2 - 1
  if pkt_loss_rate < 5.0 then (pkt_loss_table.getD 0 []).getD nb_trans_index 0
  else if pkt_loss_rate < 10.0 then (pkt_loss_table.getD 1 []).getD nb_trans_index 0
  else if pkt_loss_rate < 30.0 then (pkt_loss_table.getD 2 []).getD nb_trans_index 0
  else (pkt_loss_table.getD 3 []).getD nb_trans_index 0

/-- The loop body of `Algorithm::get_packet_loss_percentage`: iterate over
the history keeping the previous frame counter, accumulating the `u32`
wrapping difference `h.f_cnt - previous_f_cnt - 1` into a `u32` wrapping
accumulator. -/
def lost_loop (prev acc : Nat) : List UplinkHistory → Nat
  | [] => acc
  | h :: t =>
      lost_loop h.f_cnt ((acc + (h.f_cnt + 2 ^ 32 - prev - 1) % 2 ^ 32) % 2 ^ 32) t

/-- The `lost_packets` accumulator of `get_packet_loss_percentage`: the
first sample only seeds `previous_f_cnt`. -/
def lost_packets : List UplinkHistory → Nat
  | [] => 0
  | h :: t => lost_loop h.f_cnt 0 t

/-- `Algorithm::get_packet_loss_percentage` from the source: 0 for an
empty history, otherwise lost packets divided by history length times
100. -/
def get_packet_loss_percentage (uplink_history : List UplinkHistory) : Rat :=
  if uplink_history.isEmpty then 0
  else (lost_packets uplink_history : Rat) / (uplink_history.length : Rat) * 100

/-- `Algorithm::get_max_snr` from the source: fold the maximum SNR, seeded
with the sentinel −999, over the slice `[0 .. len - 5]`. `len - 5` is a
`usize` subtraction: for `len < 5` it wraps below zero and the slice
indexing panics (modelled as `none`); for `len ≥ 5` the slice is the first
`len - 5` samples. -/
def get_max_snr (uplink_history : List UplinkHistory) : Option Rat :=
  if uplink_history.length < 5 then none
  else
    some ((uplink_history.take (uplink_history.length - 5)).foldl
      (fun max_snr uh => if uh.max_snr > max_snr then uh.max_snr else max_snr) (-999))

/-- The response the handler starts from: the request's current values. -/
def initial_resp (req : Request) : Response :=
  { dr := req.dr, tx_power_index := req.tx_power_index, nb_trans := req.nb_trans }

/-- Steps 2–3 of the handler: clamp `dr` and `tx_power_index` into their
bounds, and reset the power index to `min_tx_power_index` if clamping
changed `dr`. (Rust `clamp` is `min (max v lo) hi`; its `lo ≤ hi`
assertion is checked in `handle`.) -/
def clamp_stage (req : Request) : Response :=
  let dr := min (max req.dr req.min_dr) req.max_dr
  let tx := min (max req.tx_power_index req.min_tx_power_index) req.max_tx_power_index
  let tx := if dr ≠ req.dr then req.min_tx_power_index else tx
  { dr := dr, tx_power_index := tx, nb_trans := req.nb_trans }

/-- The `resp.nb_trans < 1` efficiency-improvement branch of the retuning
block: set `nb_trans := 1`, then either lower the power one step (already
at `max_dr` and ample SNR headroom) or raise the rate one step (SNR above
the next rate's requirement). The data-rate lookups can hit
`unimplemented!()` (`none`). Additions on the `u8` fields wrap mod 256. -/
def improve (req : Request) (snr_max : Rat) (resp : Response) : Option Response :=
  if resp.nb_trans < 1 then
    let resp := { resp with nb_trans := 1 }
    if resp.dr = req.max_dr then
      let tx_power_step : Rat :=
        match req.mac_version with
        | .LORAWAN_1_0_0 | .LORAWAN_1_0_1 => 3.0
        | _ => 2.0
      (data_rate_to_req_snr resp.dr).map fun base =>
        if snr_max > base + req.installation_margin + tx_power_step then
          { resp with tx_power_index := min ((req.tx_power_index + 1) % 2 ^ 8) req.max_tx_power_index }
        else resp
    else
      (data_rate_to_req_snr ((resp.dr + 1) % 2 ^ 8)).map fun req_snr =>
        if snr_max > req_snr + req.installation_margin then
          { resp with dr := (resp.dr + 1) % 2 ^ 8, nb_trans := 2,
                      tx_power_index := req.min_tx_power_index }
        else resp
  else some resp

/-- The step-7 retuning block of the handler, executed only when the
history has exactly `required_history_count` samples. `resp.dr - 1` is a
`u8` subtraction and wraps mod 256 when `resp.dr = 0`. -/
def retune (req : Request) (calc_nb_trans : Nat) (snr_max : Rat) (resp : Response) :
    Option Response :=
  let resp :=
    if calc_nb_trans > resp.nb_trans then
      { resp with tx_power_index := req.min_tx_power_index }
    else resp
  let resp := { resp with nb_trans := calc_nb_trans }
  let max_nb_trans : Nat := if req.skip_fcnt_check then 1 else 3
  if resp.nb_trans > max_nb_trans then
    some { resp with dr := max ((resp.dr + 2 ^ 8 - 1) % 2 ^ 8) req.min_dr, nb_trans := 1 }
  else
    (improve req snr_max resp).map fun r => { r with nb_trans := min r.nb_trans max_nb_trans }

/-- Step 8 of the handler: the rate floor — a resulting data rate of 0 or
1 forces `nb_trans := 1`. -/
def rate_floor (resp : Response) : Response :=
  if resp.dr = 0 ∨ resp.dr = 1 then { resp with nb_trans := 1 } else resp

/-- Step 9 of the handler: escape from the lowest rate when the SNR
baseline clears the requirement of rate 1 plus the installation margin. -/
def low_rate_escape (req : Request) (snr_max : Rat) (resp : Response) : Option Response :=
  (data_rate_to_req_snr 1).map fun s =>
    if resp.dr = 0 ∧ snr_max > s + req.installation_margin then
      { resp with dr := min 1 req.max_dr, tx_power_index := req.min_tx_power_index }
    else resp

/-- `Algorithm::handle` from the source (the `decide` operation):
pass-through when ADR is disabled; clamp and early-exit when a bound was
violated; otherwise compute the desired retransmission count and the SNR
baseline, run the retuning block when the history has exactly 20 samples,
and finish with the rate floor and the lowest-rate escape. `none` models a
panic (clamp assertion, `len - 5` underflow, `unimplemented!()`). -/
def handle (req : Request) : Option Response :=
  if req.adr = false then some (initial_resp req)
  else if req.max_dr < req.min_dr ∨ req.max_tx_power_index < req.min_tx_power_index then none
  else
    let resp := clamp_stage req
    if resp.dr ≠ req.dr ∨ resp.tx_power_index ≠ req.tx_power_index then
      some { resp with nb_trans := 1 }
    else
      let calc_nb_trans :=
        get_nb_trans req.nb_trans (get_packet_loss_percentage req.uplink_history)
      (get_max_snr req.uplink_history).bind fun snr_max =>
        (if req.uplink_history.length = required_history_count then
          retune req calc_nb_trans snr_max resp
        else some resp).bind fun resp =>
          low_rate_escape req snr_max (rate_floor resp)

/-- `Handler::get_name` from the source. -/
def get_name : String := "Netmore ADR algorithm"

/-- `Handler::get_id` from the source. -/
def get_id : String := "netmore"

/-! Spec-side definitions, written from the spec's words, for the
refinement claims about packet loss and the nb_trans table. -/

/-- Following the spec's words: the sum, over consecutive pairs of
history samples, of the frame-counter gap
`next.f_cnt - prev.f_cnt - 1`. -/
def spec_gap_sum : List UplinkHistory → Nat
  | a :: b :: t => (b.f_cnt - a.f_cnt - 1) + spec_gap_sum (b :: t)
  | _ => 0

/-- Following the spec's words: the loss band of a packet-loss
percentage — row 0 for < 5 %, row 1 for < 10 %, row 2 for < 30 %, row 3
otherwise. -/
def spec_loss_band (pkt_loss_rate : Rat) : Nat :=
  if pkt_loss_rate < 5 then 0
  else if pkt_loss_rate < 10 then 1
  else if pkt_loss_rate < 30 then 2
  else 3

/-- Following the spec's words: the fixed 4×3 desired-nb_trans matrix. -/
def spec_nb_table : List (List Nat) := [[0, 1, 2], [1, 2, 3], [2, 3, 4], [4, 4, 4]]

/-- Following the spec's words: the desired nb_trans is the matrix cell
selected by the loss band as row and the current nb_trans clamped into
1..3 as column. -/
def spec_desired_nb_trans (current_nb_trans : Nat) (pkt_loss_rate : Rat) : Nat :=
  (spec_nb_table.getD (spec_loss_band pkt_loss_rate) []).getD
    (min (max current_nb_trans 1) 3 - 1) 0

/-- The spec-side gap sum, restated relative to the previous frame
counter, used to relate the source's loop to `spec_gap_sum`. -/
def gaps_from (prev : Nat) : List UplinkHistory → Nat
  | [] => 0
  | h :: t => (h.f_cnt - prev - 1) + gaps_from h.f_cnt t

/-! Concrete inputs used by the closed theorems and witnesses. -/

/-- A sample with the given frame counter and SNR. -/
def mk_sample (f : Nat) (snr : Rat) : UplinkHistory := ⟨f, snr⟩

/-- A well-formed in-bounds request: ADR enabled, `dr = 2 ∈ [0, 5]`,
`tx_power_index = 0 ∈ [0, 0]`, `nb_trans = 1`, empty history. -/
def base_req : Request :=
  { dev_eui := "0102030405060708", adr := true, dr := 2, min_dr := 0, max_dr := 5,
    tx_power_index := 0, min_tx_power_index := 0, max_tx_power_index := 0,
    nb_trans := 1, mac_version := .LORAWAN_1_0_3, installation_margin := 0,
    skip_fcnt_check := false, uplink_history := [] }

/-- Twenty samples whose frame counters are 1..19 and then 26: six lost
frames, i.e. a packet loss of 6 / 20 × 100 = 30 %. -/
def hist_loss30 : List UplinkHistory :=
  [mk_sample 1 0, mk_sample 2 0, mk_sample 3 0, mk_sample 4 0, mk_sample 5 0,
   mk_sample 6 0, mk_sample 7 0, mk_sample 8 0, mk_sample 9 0, mk_sample 10 0,
   mk_sample 11 0, mk_sample 12 0, mk_sample 13 0, mk_sample 14 0, mk_sample 15 0,
   mk_sample 16 0, mk_sample 17 0, mk_sample 18 0, mk_sample 19 0, mk_sample 26 0]

/-- Twenty samples with consecutive frame counters 1..20 (0 % loss) and
SNR 0. -/
def hist_full20 : List UplinkHistory :=
  [mk_sample 1 0, mk_sample 2 0, mk_sample 3 0, mk_sample 4 0, mk_sample 5 0,
   mk_sample 6 0, mk_sample 7 0, mk_sample 8 0, mk_sample 9 0, mk_sample 10 0,
   mk_sample 11 0, mk_sample 12 0, mk_sample 13 0, mk_sample 14 0, mk_sample 15 0,
   mk_sample 16 0, mk_sample 17 0, mk_sample 18 0, mk_sample 19 0, mk_sample 20 0]

/-- The C2 failing input: well formed, ADR enabled, `dr = min_dr = 0`,
20-sample history with 30 % packet loss. -/
def req_c2 : Request := { base_req with dr := 0, uplink_history := hist_loss30 }

/-- The C8 failing input: well formed, in bounds, three-sample history. -/
def req_c8 : Request :=
  { base_req with uplink_history := [mk_sample 4 7, mk_sample 5 7, mk_sample 6 7] }

/-- The C9 counterexample input: ADR disabled, `dr = 0`, `nb_trans = 3`. -/
def req_c9 : Request := { base_req with adr := false, dr := 0, nb_trans := 3 }

/-- The C9 witness input: ADR enabled, `dr = 7` above `max_dr = 1`, so the
clamp changes `dr` and the early exit returns `dr = 1`. -/
def req_c9w : Request := { base_req with dr := 7, max_dr := 1, nb_trans := 3 }

/-- The C4 witness input: ADR disabled. -/
def req_c4 : Request := { base_req with adr := false, dr := 3, nb_trans := 2 }

/-- The C5 witness input: the spec's scenario `{dr = 6, max_dr = 5,
tx_power_index = 2, min_tx_power_index = 0, nb_trans = 2, adr_enabled}`. -/
def req_c5 : Request :=
  { base_req with dr := 6, tx_power_index := 2, max_tx_power_index := 7, nb_trans := 2 }

/-- History with frame counters 10, 11, 13, 14: one gap of size one. -/
def hist_c6 : List UplinkHistory :=
  [mk_sample 10 0, mk_sample 11 0, mk_sample 13 0, mk_sample 14 0]

/-- The C10 witness input: in bounds, 20-sample history with 0 % loss. -/
def req_c10 : Request := { base_req with uplink_history := hist_full20 }

/-! Theorems. -/

set_option maxRecDepth 8000

/-- Claim C1: decide never fails, panics or aborts on a well-formed
request. Refuted by the code: on the well-formed request `base_req`
(ADR enabled, all indices in bounds, empty history) `handle` aborts —
`get_max_snr` computes the `usize` difference `len - 5`, which wraps
below zero for a history shorter than five samples, and the subsequent
slice indexing panics. The theorem records the well-formedness of the
input and the abnormal result. -/
theorem c1_decide_panics_on_short_history :
    base_req.adr = true ∧
    base_req.min_dr ≤ base_req.dr ∧ base_req.dr ≤ base_req.max_dr ∧
    base_req.min_tx_power_index ≤ base_req.tx_power_index ∧
    base_req.tx_power_index ≤ base_req.max_tx_power_index ∧
    base_req.max_dr ≤ 5 ∧ base_req.nb_trans = 1 ∧
    base_req.uplink_history = [] ∧
    handle base_req = none := by decide

/-- Claim C2: every response satisfies `dr ≤ max_dr`. Refuted by the
code: on the well-formed request `req_c2` (`dr = min_dr = 0`, 20-sample
history with 30 % loss) the retuning block computes the desired
nb_trans 4 > 3 and steps the data rate down via the `u8` subtraction
`resp.dr - 1`, which wraps to 255, so the returned `dr` is 255 while
`max_dr` is 5. -/
theorem c2_response_dr_escapes_bounds :
    req_c2.min_dr ≤ req_c2.dr ∧ req_c2.dr ≤ req_c2.max_dr ∧
    handle req_c2 = some { dr := 255, tx_power_index := 0, nb_trans := 1 } ∧
    req_c2.max_dr < 255 :=
  ⟨by decide, by decide, by
    norm_num [handle, req_c2, base_req, hist_loss30, mk_sample, clamp_stage, initial_resp,
      get_packet_loss_percentage, lost_packets, lost_loop, get_nb_trans, get_max_snr,
      retune, improve, rate_floor, low_rate_escape, data_rate_to_req_snr,
      required_history_count], by decide⟩

/-- Claim C3: the SNR baseline is the maximum `max_snr` over all samples
but the most recent five, and the sentinel −999 when no samples remain
(in particular for an empty or short history). Refuted by the code: for
histories of length one (and zero) `get_max_snr` panics on the wrapped
`usize` subtraction `len - 5` instead of returning −999; for a history
of length ≥ 5 the code does return the maximum of the samples before the
last five (here the single SNR 7 sample). -/
theorem c3_max_snr_panics_below_five_samples :
    get_max_snr [] = none ∧
    get_max_snr [mk_sample 10 5] = none ∧
    get_max_snr [mk_sample 1 7, mk_sample 2 9, mk_sample 3 9, mk_sample 4 9,
                 mk_sample 5 9, mk_sample 6 9] = some 7 ∧
    get_max_snr [mk_sample 1 7, mk_sample 2 9, mk_sample 3 9, mk_sample 4 9,
                 mk_sample 5 9] = some (-999) := by decide

/-- Claim C8: with ADR enabled, values in bounds and any history length
other than 20, the retuning block is skipped and the request's values
come back (modulo rate floor and low-rate escape). Refuted by the code
for lengths 0–4: on the well-formed in-bounds request `req_c8` with a
three-sample history the claim predicts the response `(2, 0, 1)`, but
`handle` panics in `get_max_snr` on the wrapped `usize` subtraction
`len - 5`. -/
theorem c8_short_history_panics_instead_of_bypassing :
    req_c8.adr = true ∧
    req_c8.min_dr ≤ req_c8.dr ∧ req_c8.dr ≤ req_c8.max_dr ∧
    req_c8.min_tx_power_index ≤ req_c8.tx_power_index ∧
    req_c8.tx_power_index ≤ req_c8.max_tx_power_index ∧
    req_c8.uplink_history.length = 3 ∧
    handle req_c8 = none := by decide

/-- Claim C4: with ADR disabled, decide returns exactly the request's
current `dr`, `tx_power_index` and `nb_trans`, for any request and any
history — the pass-through path returns before any other step runs. -/
theorem c4_pass_through (req : Request) (h : req.adr = false) :
    handle req = some { dr := req.dr, tx_power_index := req.tx_power_index,
                        nb_trans := req.nb_trans } := by
  unfold handle initial_resp
  simp [h]

/-- Witness for C4 at the concrete ADR-disabled request `req_c4`. -/
theorem c4_witness :
    req_c4.adr = false ∧
    handle req_c4 = some { dr := 3, tx_power_index := 0, nb_trans := 2 } :=
  ⟨rfl, c4_pass_through req_c4 rfl⟩

/-- Claim C5: with ADR enabled and a current `dr` outside
`[min_dr, max_dr]` (bounds themselves well formed), the response is the
clamped `dr`, the minimum power index and `nb_trans = 1`, for any
history — the clamp changes `dr`, which resets the power index and takes
the early exit. -/
theorem c5_clamp_early_exit (req : Request) (ha : req.adr = true)
    (h1 : req.min_dr ≤ req.max_dr) (h2 : req.min_tx_power_index ≤ req.max_tx_power_index)
    (h3 : req.dr < req.min_dr ∨ req.max_dr < req.dr) :
    handle req = some { dr := min (max req.dr req.min_dr) req.max_dr,
                        tx_power_index := req.min_tx_power_index, nb_trans := 1 } := by
  have hg : ¬ (req.max_dr < req.min_dr ∨ req.max_tx_power_index < req.min_tx_power_index) := by
    omega
  have hne : min (max req.dr req.min_dr) req.max_dr ≠ req.dr := by omega
  unfold handle clamp_stage
  simp [ha, hg, hne]

/-- Witness for C5 at the spec's scenario `{dr = 6, max_dr = 5,
tx_power_index = 2, min_tx_power_index = 0, nb_trans = 2}`: the response
is `{dr = 5, tx_power_index = 0, nb_trans = 1}`. -/
theorem c5_witness :
    handle req_c5 = some { dr := 5, tx_power_index := 0, nb_trans := 1 } :=
  c5_clamp_early_exit req_c5 rfl (by decide) (by decide) (Or.inr (by decide))

/-- Claim C9, counterexample: a response with `dr ∈ {0, 1}` and
`nb_trans ≠ 1` exists — with ADR disabled the pass-through path returns
the request's `nb_trans` untouched, here `dr = 0` with `nb_trans = 3`. -/
theorem c9_counterexample_pass_through_keeps_nb_trans :
    handle req_c9 = some { dr := 0, tx_power_index := 0, nb_trans := 3 } ∧
    ¬ (Response.nb_trans { dr := 0, tx_power_index := 0, nb_trans := 3 } = 1) := by decide

/-- Claim C7: for every current nb_trans and every packet-loss
percentage, the source table lookup agrees with the spec's 4×3 matrix
indexed by loss band and the current count clamped into 1..3 — exact
agreement on all cells. -/
theorem c7_nb_trans_table (current_nb_trans : Nat) (pkt_loss_rate : Rat) :
    get_nb_trans current_nb_trans pkt_loss_rate =
      spec_desired_nb_trans current_nb_trans pkt_loss_rate := by
  have h5 : (5.0 : Rat) = 5 := by norm_num
  have h10 : (10.0 : Rat) = 10 := by norm_num
  have h30 : (30.0 : Rat) = 30 := by norm_num
  have hc : (if (if current_nb_trans < 1 then 1 else current_nb_trans) > 3 then 3
             else (if current_nb_trans < 1 then 1 else current_nb_trans))
          = min (max current_nb_trans 1) 3 := by split_ifs <;> omega
  simp only [get_nb_trans, spec_desired_nb_trans, spec_loss_band, spec_nb_table,
    h5, h10, h30, hc]
  split_ifs <;> simp_all

/-- With strictly increasing frame counters below 2^32, the gap sum
stays below 2^32 (it telescopes under the last frame counter). -/
lemma gaps_from_add_lt (t : List UplinkHistory) : ∀ prev : Nat,
    List.Chain' (fun a b => a < b) (prev :: t.map UplinkHistory.f_cnt) →
    (∀ x ∈ prev :: t.map UplinkHistory.f_cnt, x < 2 ^ 32) →
    gaps_from prev t + prev < 2 ^ 32 := by
  induction t with
  | nil =>
      intro prev _ hb
      have := hb prev (List.mem_cons_self _ _)
      simpa [gaps_from] using this
  | cons h t ih =>
      intro prev hc hb
      rw [List.map_cons] at hc hb
      rw [List.chain'_cons] at hc
      have hlt : prev < h.f_cnt := hc.1
      have ih2 := ih h.f_cnt hc.2 (fun x hx => hb x (List.mem_cons_of_mem _ hx))
      simp only [gaps_from]
      omega

/-- The source's wrapping `u32` loop accumulates exactly the spec-side
gap sum when the frame counters are strictly increasing `u32` values:
no wrap fires. -/
lemma lost_loop_eq (t : List UplinkHistory) : ∀ prev acc : Nat,
    List.Chain' (fun a b => a < b) (prev :: t.map UplinkHistory.f_cnt) →
    (∀ x ∈ prev :: t.map UplinkHistory.f_cnt, x < 2 ^ 32) →
    acc + gaps_from prev t < 2 ^ 32 →
    lost_loop prev acc t = acc + gaps_from prev t := by
  induction t with
  | nil => intro prev acc _ _ _; simp [lost_loop, gaps_from]
  | cons h t ih =>
      intro prev acc hc hb hacc
      rw [List.map_cons, List.chain'_cons] at hc
      have hlt : prev < h.f_cnt := hc.1
      have hh : h.f_cnt < 2 ^ 32 :=
        hb h.f_cnt (List.mem_cons_of_mem _ (List.mem_cons_self _ _))
      have hgaps : gaps_from prev (h :: t) = (h.f_cnt - prev - 1) + gaps_from h.f_cnt t := rfl
      rw [hgaps] at hacc
      have hgap : (h.f_cnt + 2 ^ 32 - prev - 1) % 2 ^ 32 = h.f_cnt - prev - 1 := by omega
      have hacc2 : (acc + (h.f_cnt - prev - 1)) % 2 ^ 32 = acc + (h.f_cnt - prev - 1) := by
        omega
      rw [lost_loop, hgap, hacc2, hgaps]
      rw [ih h.f_cnt (acc + (h.f_cnt - prev - 1)) hc.2
        (fun x hx => hb x (List.mem_cons_of_mem _ hx)) (by omega)]
      omega

/-- The pairwise gap sum of the spec equals the previous-counter-relative
restatement. -/
lemma spec_gap_sum_eq_gaps_from (a : UplinkHistory) (t : List UplinkHistory) :
    spec_gap_sum (a :: t) = gaps_from a.f_cnt t := by
  induction t generalizing a with
  | nil => rfl
  | cons b t ih => rw [spec_gap_sum, gaps_from, ih b]

/-- Claim C6: for strictly increasing `u32` frame counters the computed
packet-loss percentage equals the sum of consecutive frame-counter gaps
divided by the history length times 100 (and is 0 for an empty history,
where the right-hand side is also 0). -/
theorem c6_packet_loss (l : List UplinkHistory)
    (hc : List.Chain' (fun a b => a.f_cnt < b.f_cnt) l)
    (hb : ∀ s ∈ l, s.f_cnt < 2 ^ 32) :
    get_packet_loss_percentage l = (spec_gap_sum l : Rat) / (l.length : Rat) * 100 := by
  cases l with
  | nil => simp [get_packet_loss_percentage, spec_gap_sum]
  | cons a t =>
      have hcm : List.Chain' (fun a b => a < b) ((a :: t).map UplinkHistory.f_cnt) := by
        rw [List.chain'_map]; exact hc
      have hbm : ∀ x ∈ (a :: t).map UplinkHistory.f_cnt, x < 2 ^ 32 := by
        intro x hx
        rcases List.mem_map.mp hx with ⟨s, hs, rfl⟩
        exact hb s hs
      rw [List.map_cons] at hcm hbm
      have hlt := gaps_from_add_lt t a.f_cnt hcm hbm
      have hll := lost_loop_eq t a.f_cnt 0 hcm hbm (by omega)
      unfold get_packet_loss_percentage lost_packets
      rw [spec_gap_sum_eq_gaps_from]
      simp [hll]

/-- Witness for C6 at frame counters 10, 11, 13, 14: exactly 25 %. -/
theorem c6_witness : get_packet_loss_percentage hist_c6 = 25 := by
  have hch : List.Chain' (fun a b => a.f_cnt < b.f_cnt) hist_c6 := by
    norm_num [hist_c6, mk_sample, List.chain'_cons]
  have h := c6_packet_loss hist_c6 hch (by decide)
  rw [h]
  norm_num [spec_gap_sum, hist_c6, mk_sample]

/-- The rate floor never changes the data rate. -/
lemma rate_floor_dr (r : Response) : (rate_floor r).dr = r.dr := by
  unfold rate_floor; split_ifs <;> rfl

/-- The rate floor forces `nb_trans = 1` whenever the data rate is 0 or
1. -/
lemma rate_floor_nb_of (r : Response) (h : r.dr = 0 ∨ r.dr = 1) :
    (rate_floor r).nb_trans = 1 := by
  unfold rate_floor; rw [if_pos h]

/-- The rate floor either keeps `nb_trans` or sets it to 1. -/
lemma rate_floor_nb_cases (r : Response) :
    (rate_floor r).nb_trans = r.nb_trans ∨ (rate_floor r).nb_trans = 1 := by
  unfold rate_floor; split_ifs <;> simp

/-- The lowest-rate escape keeps `nb_trans`, and changes the data rate
only when it was 0. -/
lemma low_rate_escape_cases (req : Request) (s : Rat) (r r' : Response)
    (h : low_rate_escape req s r = some r') :
    r'.nb_trans = r.nb_trans ∧ (r'.dr = r.dr ∨ r.dr = 0) := by
  unfold low_rate_escape at h
  rw [show data_rate_to_req_snr 1 = some (-17.5) from rfl] at h
  simp only [Option.map_some'] at h
  split_ifs at h with hcond
  · simp only [Option.some.injEq] at h
    subst h
    exact ⟨rfl, Or.inr hcond.1⟩
  · simp only [Option.some.injEq] at h
    subst h
    exact ⟨rfl, Or.inl rfl⟩

/-- After the rate floor and the lowest-rate escape, a response whose
data rate is 0 or 1 carries `nb_trans = 1`. -/
lemma floor_escape_nb (req : Request) (s : Rat) (r2 r : Response)
    (h : low_rate_escape req s (rate_floor r2) = some r)
    (hdr : r.dr = 0 ∨ r.dr = 1) : r.nb_trans = 1 := by
  obtain ⟨hnb, hdr2⟩ := low_rate_escape_cases req s (rate_floor r2) r h
  rcases hdr2 with h2 | h2
  · rw [rate_floor_dr] at h2
    rw [hnb, rate_floor_nb_of]
    rw [← h2]; exact hdr
  · rw [rate_floor_dr] at h2
    rw [hnb, rate_floor_nb_of]
    exact Or.inl h2

/-- Claim C9, amended: with ADR enabled, every response returned by
decide whose `dr` is 0 or 1 has `nb_trans = 1` — the rate floor runs on
every ADR path (the ADR-disabled pass-through is excluded; it is the
counterexample to the unamended claim). -/
theorem c9_rate_floor (req : Request) (r : Response) (ha : req.adr = true)
    (hr : handle req = some r) (hdr : r.dr = 0 ∨ r.dr = 1) : r.nb_trans = 1 := by
  unfold handle at hr
  rw [if_neg (by simp [ha])] at hr
  by_cases hg : req.max_dr < req.min_dr ∨ req.max_tx_power_index < req.min_tx_power_index
  · rw [if_pos hg] at hr; exact absurd hr (by simp)
  rw [if_neg hg] at hr
  by_cases hexit : (clamp_stage req).dr ≠ req.dr ∨
      (clamp_stage req).tx_power_index ≠ req.tx_power_index
  · rw [if_pos hexit] at hr
    simp only [Option.some.injEq] at hr
    subst hr; rfl
  rw [if_neg hexit] at hr
  cases hm : get_max_snr req.uplink_history with
  | none => rw [hm] at hr; exact absurd hr (by simp)
  | some s =>
      rw [hm] at hr
      dsimp only [Option.bind] at hr
      by_cases hlen : req.uplink_history.length = required_history_count
      · rw [if_pos hlen] at hr
        cases hret : retune req
            (get_nb_trans req.nb_trans (get_packet_loss_percentage req.uplink_history))
            s (clamp_stage req) with
        | none => rw [hret] at hr; exact absurd hr (by simp)
        | some r2 =>
            rw [hret] at hr
            exact floor_escape_nb req s r2 r hr hdr
      · rw [if_neg hlen] at hr
        exact floor_escape_nb req s (clamp_stage req) r hr hdr

/-- Witness for the amended C9 at `req_c9w`, whose clamped response has
`dr = 1` and `nb_trans = 1`. -/
theorem c9_witness :
    req_c9w.adr = true ∧
    handle req_c9w = some { dr := 1, tx_power_index := 0, nb_trans := 1 } ∧
    Response.nb_trans { dr := 1, tx_power_index := 0, nb_trans := 1 } = 1 :=
  ⟨rfl, by decide,
    c9_rate_floor req_c9w { dr := 1, tx_power_index := 0, nb_trans := 1 } rfl
      (by decide) (Or.inr rfl)⟩

/-- The efficiency-improvement branch never returns a retransmission
count below 1. -/
lemma improve_nb_ge_one (req : Request) (s : Rat) (r r' : Response)
    (h : improve req s r = some r') : 1 ≤ r'.nb_trans := by
  unfold improve at h
  dsimp only at h
  split_ifs at h with h1 h2
  · obtain ⟨b, hb, hf⟩ := Option.map_eq_some'.mp h
    subst hf
    split_ifs <;> simp
  · obtain ⟨b, hb, hf⟩ := Option.map_eq_some'.mp h
    subst hf
    split_ifs <;> simp
  · simp only [Option.some.injEq] at h
    subst h; omega

/-- Any response the retuning block returns carries a retransmission
count in 1..3: the step-down branch resets it to 1 and the other
branches clamp it to `max_nb_trans ≤ 3`. -/
lemma retune_nb_bounds (req : Request) (c : Nat) (s : Rat) (r r' : Response)
    (h : retune req c s r = some r') : 1 ≤ r'.nb_trans ∧ r'.nb_trans ≤ 3 := by
  unfold retune at h
  dsimp only at h
  split_ifs at h with h1 h2 h3 h4 h5 h6 <;>
    first
    | (simp only [Option.some.injEq] at h; subst h; exact ⟨by norm_num, by norm_num⟩)
    | (obtain ⟨ri, hri, hf⟩ := Option.map_eq_some'.mp h
       have hge := improve_nb_ge_one _ _ _ _ hri
       subst hf
       refine ⟨?_, ?_⟩ <;> simp <;> omega)

/-- When the current values already sit inside their bounds, the clamp
stage is the identity. -/
lemma clamp_stage_in_bounds (req : Request)
    (hd1 : req.min_dr ≤ req.dr) (hd2 : req.dr ≤ req.max_dr)
    (ht1 : req.min_tx_power_index ≤ req.tx_power_index)
    (ht2 : req.tx_power_index ≤ req.max_tx_power_index) :
    clamp_stage req = initial_resp req := by
  unfold clamp_stage initial_resp
  rw [Nat.max_eq_left hd1, Nat.min_eq_left hd2, Nat.max_eq_left ht1, Nat.min_eq_left ht2]
  simp

/-- Claim C10: with ADR enabled, current values in bounds (no early
exit) and exactly 20 history samples, every returned response has
`nb_trans` in 1..3, even though the desired-nb_trans table can yield
4. -/
theorem c10_nb_trans_bounded (req : Request) (r : Response) (ha : req.adr = true)
    (hd1 : req.min_dr ≤ req.dr) (hd2 : req.dr ≤ req.max_dr)
    (ht1 : req.min_tx_power_index ≤ req.tx_power_index)
    (ht2 : req.tx_power_index ≤ req.max_tx_power_index)
    (hlen : req.uplink_history.length = 20)
    (hr : handle req = some r) :
    1 ≤ r.nb_trans ∧ r.nb_trans ≤ 3 := by
  unfold handle at hr
  rw [if_neg (by simp [ha])] at hr
  rw [if_neg (by omega)] at hr
  rw [clamp_stage_in_bounds req hd1 hd2 ht1 ht2] at hr
  rw [if_neg (by simp [initial_resp])] at hr
  cases hm : get_max_snr req.uplink_history with
  | none => rw [hm] at hr; exact absurd hr (by simp)
  | some s =>
      rw [hm] at hr
      dsimp only [Option.bind] at hr
      rw [if_pos (by rw [hlen]; rfl)] at hr
      cases hret : retune req
          (get_nb_trans req.nb_trans (get_packet_loss_percentage req.uplink_history))
          s (initial_resp req) with
      | none => rw [hret] at hr; exact absurd hr (by simp)
      | some r2 =>
          rw [hret] at hr
          have hb2 := retune_nb_bounds _ _ _ _ _ hret
          have hesc := (low_rate_escape_cases _ _ _ _ hr).1
          rcases rate_floor_nb_cases r2 with hf | hf <;> omega

/-- Witness for C10 at `req_c10` (20 consecutive samples, 0 % loss):
the response is `{dr = 3, tx_power_index = 0, nb_trans = 2}`. -/
theorem c10_witness :
    handle req_c10 = some { dr := 3, tx_power_index := 0, nb_trans := 2 } ∧
    1 ≤ Response.nb_trans { dr := 3, tx_power_index := 0, nb_trans := 2 } ∧
    Response.nb_trans { dr := 3, tx_power_index := 0, nb_trans := 2 } ≤ 3 := by
  have he : handle req_c10 = some { dr := 3, tx_power_index := 0, nb_trans := 2 } := by
    norm_num [handle, req_c10, base_req, hist_full20, mk_sample, clamp_stage, initial_resp,
      get_packet_loss_percentage, lost_packets, lost_loop, get_nb_trans, get_max_snr,
      retune, improve, rate_floor, low_rate_escape, data_rate_to_req_snr,
      required_history_count]
  refine ⟨he, ?_, ?_⟩
  · exact (c10_nb_trans_bounded req_c10 _ rfl (by decide) (by decide) (by decide)
      (by decide) (by decide) he).1
  · exact (c10_nb_trans_bounded req_c10 _ rfl (by decide) (by decide) (by decide)
      (by decide) (by decide) he).2

end Netmore
